import Mathlib

/-
Verification of the "Lookup Client Facade" tool files:
  * backend/open_webui/extensions/tools/investigation_apis.py   (real variant)
  * backend/open_webui/extensions/tools/investigation_mock_apis.py (mock variant)
  * backend/open_webui/extensions/tools/tools2.py               (unified mock variant)

The Python functions are shallowly embedded as pure Lean functions over a
JSON-like value type.  Optional string parameters are `Option String`;
Python truthiness of an optional string ("not x") is captured by `truthy`.
The real variant's outbound HTTP GET is modelled by handing every operation
the parsed response body that the (stub) backend would produce, together
with an explicit trace of the outbound calls the operation performed.
Python float literals occurring in mock payloads are embedded by their
source text (constructor `jdec`), since no arithmetic is ever performed on
them by the code under verification.
-/

namespace Spec2Proof

/-- JSON-like values as produced/consumed by the tool files. -/
inductive JValue where
  | jnull
  | jbool (b : Bool)
  | jint (n : Int)
  | jdec (lit : String)
  | jstr (s : String)
  | jarr (items : List JValue)
  | jobj (fields : List (String × JValue))

namespace JValue

-- Python `repr()` of a value, mutually recursive with its list/object forms.
mutual

def pyRepr : JValue → String
  | .jnull => "None"
  | .jbool b => if b then "True" else "False"
  | .jint n => toString n
  | .jdec lit => lit
  | .jstr s => "\x27" ++ s ++ "\x27"
  | .jarr items => "[" ++ String.intercalate ", " (pyReprList items) ++ "]"
  | .jobj fields => "\x7b" ++ String.intercalate ", " (pyReprFields fields) ++ "\x7d"

def pyReprList : List JValue → List String
  | [] => []
  | v :: vs => pyRepr v :: pyReprList vs

def pyReprFields : List (String × JValue) → List String
  | [] => []
  | (k, v) :: kvs => ("\x27" ++ k ++ "\x27: " ++ pyRepr v) :: pyReprFields kvs

end

/-- Python `str()` used by f-string interpolation: a string renders as
itself, everything else as its `repr`. -/
def pyStr : JValue → String
  | .jstr s => s
  | v => pyRepr v

/-- Python `dict.get(k)`: the value at `k`, or `None` when absent.
Only meaningful on objects (matching the call sites, which guard on dict). -/
def objGet (fields : List (String × JValue)) (k : String) : JValue :=
  (fields.lookup k).getD .jnull

/-- Field projection on a JSON object, `jnull` elsewhere / when absent. -/
def jGet : JValue → String → JValue
  | .jobj fields, k => objGet fields k
  | _, _ => .jnull

/-- Optional field projection: `some v` iff the value is an object with key `k`. -/
def jGetOpt : JValue → String → Option JValue
  | .jobj fields, k => fields.lookup k
  | _, _ => none

/-- Length of a JSON array or object, `0` elsewhere. -/
def jLen : JValue → Nat
  | .jarr items => items.length
  | .jobj fields => fields.length
  | _ => 0

/-- Element projection on a JSON array, `jnull` elsewhere / out of range. -/
def jIdx : JValue → Nat → JValue
  | .jarr items, i => items.getD i .jnull
  | _, _ => .jnull

/-- The field list of a JSON object, `[]` elsewhere. -/
def jFields : JValue → List (String × JValue)
  | .jobj fields => fields
  | _ => []

end JValue

/-- Python truthiness of an `Optional[str]`: `None` and `""` are falsy,
every other string is truthy. -/
def truthy : Option String → Bool
  | none => false
  | some s => s != ""

/-- Python `a or b` on two `Optional[str]` values (truthiness-based). -/
def pyOrOpt (a b : Option String) : Option String :=
  if truthy a then a else b

/-- Python `a or d` where `d` is a plain string: the string in `a` when it is
truthy, otherwise `d`. -/
def pyOrStr (a : Option String) (d : String) : String :=
  match a with
  | none => d
  | some s => if s = "" then d else s

namespace InvestigationApis

open JValue

/-- `Tools._clean_params`: drop entries whose value is `None` or `""`. -/
def clean_params (params : List (String × Option String)) :
    List (String × Option String) :=
  params.filter fun kv => truthy kv.2

/-- `Tools._normalize_found_flag`: `False` for `None` and for empty
list/dict, `True` for everything else. -/
def normalize_found_flag : JValue → Bool
  | .jnull => false
  | .jarr items => !items.isEmpty
  | .jobj fields => !fields.isEmpty
  | _ => true

/-- Render a cleaned parameter mapping as the JSON object that appears in
`query_params` (cleaned values are actual strings; a `none` value, which
cleaning in fact never leaves behind, would render as `null`). -/
def paramsToJ (params : List (String × Option String)) : JValue :=
  .jobj (params.map fun kv =>
    (kv.1, match kv.2 with
           | some s => JValue.jstr s
           | none => JValue.jnull))

/-- Python `body.get("code") == 200` (an integer comparison; envelope codes
are integers, so no numeric cross-type comparison arises). -/
def codeIs200 : JValue → Bool
  | .jint n => n == 200
  | _ => false

/-- Envelope interpretation inside `Tools._get`, applied to the parsed
response body: a dict containing `"code"` is an AjaxResult — `code == 200`
yields its `"data"` field, any other code raises
`Exception("Backend error: {msg}")`; any other body is returned as-is. -/
def gatewayGet (body : JValue) : Except String JValue :=
  match body with
  | .jobj fields =>
      match fields.lookup "code" with
      | some c =>
          if codeIs200 c then .ok (objGet fields "data")
          else .error ("Backend error: " ++ pyStr (objGet fields "msg"))
      | none => .ok body
  | b => .ok b

/-- `Tools._need_more_input`: the structured missing-parameter return. -/
def need_more_input (message : String) (missing_fields : List String) : JValue :=
  .jobj [("error", .jstr "MISSING_REQUIRED_PARAMS"),
         ("message", .jstr message),
         ("missing_fields", .jarr (missing_fields.map JValue.jstr))]

/-- `Tools._wrap_result`: wrap backend data with the api path, the cleaned
query parameters and the computed `found` flag. -/
def wrap_result (api_path : String) (raw_params : List (String × Option String))
    (data : JValue) : JValue :=
  .jobj [("api", .jstr api_path),
         ("query_params", paramsToJ (clean_params raw_params)),
         ("found", .jbool (normalize_found_flag data)),
         ("data", data)]

/-- One outbound backend call: the fixed path and the cleaned query sent. -/
abbrev BackendCall := String × List (String × Option String)

/-- Result of one operation of the real variant: the returned value
(`Except.error` models a raised exception) together with the trace of
outbound backend calls performed. -/
abbrev OpResult := Except String JValue × List BackendCall

/-- Shared tail of every real-variant operation once validation passed:
one GET (recorded in the trace), then wrap on success, propagate on error. -/
def runOp (backend : JValue) (path : String)
    (raw_params : List (String × Option String)) : OpResult :=
  match gatewayGet backend with
  | .error e => (.error e, [(path, clean_params raw_params)])
  | .ok data => (.ok (wrap_result path raw_params data), [(path, clean_params raw_params)])

/-- `Tools.get_person_baseinfo` (/ai/baseinfo). -/
def get_person_baseinfo (backend : JValue)
    (id passport phonenum : Option String) : OpResult :=
  if !truthy id && !truthy passport && !truthy phonenum then
    (.ok (need_more_input
        "To query base info, please provide at least one of: ID number, passport, or phone number."
        ["id", "passport", "phonenum"]), [])
  else
    runOp backend "/ai/baseinfo"
      [("id", id), ("passport", passport), ("phonenum", phonenum)]

/-- `Tools.get_family_members` (/ai/family). -/
def get_family_members (backend : JValue) (id phonenum : Option String) : OpResult :=
  if !truthy id && !truthy phonenum then
    (.ok (need_more_input
        "To query family members, please provide an ID number or a phone number."
        ["id", "phonenum"]), [])
  else
    runOp backend "/ai/family" [("id", id), ("phonenum", phonenum)]

/-- `Tools.get_cr_info` (/ai/cr). -/
def get_cr_info (backend : JValue) (id passport phonenum : Option String) : OpResult :=
  if !truthy id && !truthy passport && !truthy phonenum then
    (.ok (need_more_input
        "To query CR information, please provide at least one of: ID number, passport, or phone number."
        ["id", "passport", "phonenum"]), [])
  else
    runOp backend "/ai/cr"
      [("id", id), ("passport", passport), ("phonenum", phonenum)]

/-- `Tools.get_top_contacts` (/ai/contact). -/
def get_top_contacts (backend : JValue) (id phonenum : Option String) : OpResult :=
  if !truthy id && !truthy phonenum then
    (.ok (need_more_input
        "To query top contacts, please provide an ID number or a phone number."
        ["id", "phonenum"]), [])
  else
    runOp backend "/ai/contact" [("id", id), ("phonenum", phonenum)]

/-- `Tools.get_vehicles` (/ai/car). -/
def get_vehicles (backend : JValue) (id phonenum : Option String) : OpResult :=
  if !truthy id && !truthy phonenum then
    (.ok (need_more_input
        "To query vehicle information, please provide an ID number or a phone number."
        ["id", "phonenum"]), [])
  else
    runOp backend "/ai/car" [("id", id), ("phonenum", phonenum)]

/-- `Tools.get_social_accounts` (/ai/social). -/
def get_social_accounts (backend : JValue) (id phonenum : Option String) : OpResult :=
  if !truthy id && !truthy phonenum then
    (.ok (need_more_input
        "To query social accounts, please provide an ID number or a phone number."
        ["id", "phonenum"]), [])
  else
    runOp backend "/ai/social" [("id", id), ("phonenum", phonenum)]

/-- `Tools.get_locations` (/ai/location). -/
def get_locations (backend : JValue) (id phonenum : Option String) : OpResult :=
  if !truthy id && !truthy phonenum then
    (.ok (need_more_input
        "To query locations, please provide an ID number or a phone number."
        ["id", "phonenum"]), [])
  else
    runOp backend "/ai/location" [("id", id), ("phonenum", phonenum)]

/-- `Tools.search_voip_records` (/ai/voip). -/
def search_voip_records (backend : JValue) (keyword phonenum : Option String) : OpResult :=
  if !truthy keyword && !truthy phonenum then
    (.ok (need_more_input
        "To query VoIP call records, please provide a keyword or a phone number."
        ["keyword", "phonenum"]), [])
  else
    runOp backend "/ai/voip" [("keyword", keyword), ("phonenum", phonenum)]

/-- `Tools.search_sms_records` (/ai/sms). -/
def search_sms_records (backend : JValue) (keyword phonenum : Option String) : OpResult :=
  if !truthy keyword && !truthy phonenum then
    (.ok (need_more_input
        "To query SMS records, please provide a keyword or a phone number."
        ["keyword", "phonenum"]), [])
  else
    runOp backend "/ai/sms" [("keyword", keyword), ("phonenum", phonenum)]

/-- `Tools.search_email_records` (/ai/email). -/
def search_email_records (backend : JValue) (keyword email : Option String) : OpResult :=
  if !truthy keyword && !truthy email then
    (.ok (need_more_input
        "To query email records, please provide a keyword or an email address."
        ["keyword", "email"]), [])
  else
    runOp backend "/ai/email" [("keyword", keyword), ("email", email)]

end InvestigationApis

/-- Python `a or d` where `a` is a plain string: `a` when non-empty, else `d`. -/
def pyOrD (a d : String) : String :=
  if a = "" then d else a

/-- Embed an `Optional[str]` value directly into JSON (used where the code
places a possibly-`None` parameter into a payload without a fallback). -/
def jOfOpt : Option String → JValue
  | none => .jnull
  | some s => .jstr s

namespace InvestigationMock

open JValue

/-- Module-level `PROTOCOL_MAP` constant. -/
def PROTOCOL_MAP : List (String × String) :=
  [("147701", "X"),
   ("147801", "TikTok"),
   ("147501", "Instagram"),
   ("147201", "WhatsApp"),
   ("147301", "Facebook"),
   ("147901", "AddressBook"),
   ("128901", "Email"),
   ("199901", "LinkedIn")]

/-- `PROTOCOL_MAP.get(k, d)`. -/
def protocolGet (k d : String) : String :=
  (PROTOCOL_MAP.lookup k).getD d

/-- `Tools._ok`: the unified mock success envelope. -/
def mkOk (data : JValue) : JValue :=
  .jobj [("code", .jint 0), ("data", data)]

/-- `Tools._err`: the unified mock error envelope; `missing_params` and
`ask_user_prompt` are attached only when truthy (Python `if missing:` /
`if ask:`). -/
def mkErr (msg : String) (missing : Option (List String)) (ask : Option String) : JValue :=
  .jobj ([("code", .jint 500), ("msg", .jstr msg)]
    ++ (match missing with
        | some l => if l.isEmpty then [] else [("missing_params", .jarr (l.map JValue.jstr))]
        | none => [])
    ++ (match ask with
        | some a => if a = "" then [] else [("ask_user_prompt", .jstr a)]
        | none => []))

/-- `Tools._ensure_any_param`: passes (returns `none`) iff at least one of
the given parameter values `is not None`; otherwise the error envelope
naming every key. -/
def ensure_any_param (params : List (String × Option String)) (msg ask : String) :
    Option JValue :=
  if params.any fun kv => kv.2.isSome then none
  else some (mkErr msg (some (params.map Prod.fst)) (some ask))

/-- `Tools.get_person_basic_info` (/business/ai/baseinfo, mock). -/
def get_person_basic_info (id phone query_id : Option String) : JValue :=
  match ensure_any_param [("id", id), ("phone", phone)]
      "Missing required identifier: you must provide \x27id\x27 or \x27phone\x27."
      "To query basic information, please provide an ID or a phone number." with
  | some err => err
  | none =>
      mkOk (.jobj
        [("id", .jstr (pyOrStr id "P202511300001")),
         ("phone", .jstr (pyOrStr phone "+96890001122")),
         ("name", .jstr "Demo Person"),
         ("avatar_url", .jstr "https://example.com/avatar/demo_person.png"),
         ("country", .jstr "OM"),
         ("gender", .jstr "M"),
         ("query_id", .jstr (pyOrStr query_id "mock-baseinfo-001"))])

/-- `Tools.get_contact_statistics` (/business/ai/contact, mock). -/
def get_contact_statistics (phone email query_id : Option String) : JValue :=
  match ensure_any_param [("phone", phone), ("email", email)]
      "Missing required identifier: you must provide \x27phone\x27 or \x27email\x27."
      "To query contacts, please provide a phone number or an email address." with
  | some err => err
  | none =>
      let target := pyOrOpt phone email
      let data : List JValue :=
        [.jobj [("contact_type", .jstr "phone"),
                ("contact", .jstr "+96890003344"),
                ("times", .jint 128)],
         .jobj [("contact_type", .jstr "phone"),
                ("contact", .jstr "+96890005566"),
                ("times", .jint 34)],
         .jobj [("contact_type", .jstr "email"),
                ("contact", .jstr "friend@example.com"),
                ("times", .jint 12)]]
      mkOk (.jobj
        [("owner", jOfOpt target),
         ("items", .jarr data),
         ("query_id", .jstr (pyOrStr query_id "mock-contact-001"))])

/-- `Tools.get_social_accounts` (/business/ai/social, mock). -/
def get_social_accounts (account phone query_id : Option String) : JValue :=
  match ensure_any_param [("account", account), ("phone", phone)]
      "Missing required identifier: you must provide \x27account\x27 or \x27phone\x27."
      "To query social identities, please provide a social account or a phone number." with
  | some err => err
  | none =>
      let owner := pyOrStr (pyOrOpt account phone) ""
      let items : List JValue :=
        [.jobj [("dataid", .jstr ("128901_" ++ owner)),
                ("protocol", .jstr "128901"),
                ("account", .jstr (pyOrD owner "demo_user@m.facebook.com")),
                ("phone", .jstr (pyOrStr phone "+96890001122")),
                ("nickname", .jstr "Demo Email"),
                ("platform", .jstr (protocolGet "128901" "Email"))],
         .jobj [("dataid", .jstr ("147301_" ++ pyOrStr phone "demo_facebook")),
                ("protocol", .jstr "147301"),
                ("account", .jstr "demo_facebook_user"),
                ("phone", .jstr (pyOrStr phone "+96890001122")),
                ("nickname", .jstr "Demo FB"),
                ("platform", .jstr (protocolGet "147301" "Facebook"))]]
      mkOk (.jobj
        [("owner", .jstr owner),
         ("items", .jarr items),
         ("query_id", .jstr (pyOrStr query_id "mock-social-001"))])

/-- `Tools.get_company_registration` (/business/ai/cr, mock). -/
def get_company_registration (id query_id : Option String) : JValue :=
  match id with
  | none =>
      mkErr "Missing required parameter: id." (some ["id"])
        (some "To query company registration information, please provide a company id.")
  | some i =>
      mkOk (.jobj
        [("id", .jstr i),
         ("reg_no", .jstr "CR-2025-000001"),
         ("name", .jstr "OneCloudTech Demo LLC"),
         ("status", .jstr "Active"),
         ("legal_person", .jstr "Demo Owner"),
         ("address", .jstr "Muscat, Oman"),
         ("industry", .jstr "Information Technology Services"),
         ("establish_date", .jstr "2023-01-01"),
         ("query_id", .jstr (pyOrStr query_id "mock-cr-001"))])

/-- `Tools.get_voip_records` (/business/ai/voip, mock). -/
def get_voip_records (phone query_id : Option String) : JValue :=
  match phone with
  | none =>
      mkErr "Missing required parameter: phone." (some ["phone"])
        (some "To query VoIP call records, please provide a phone number.")
  | some p =>
      let items : List JValue :=
        [.jobj [("call_id", .jstr "VOIP-20251130-0001"),
                ("from", .jstr p),
                ("to", .jstr "+96890002233"),
                ("start_time", .jstr "2025-11-30 10:30:00"),
                ("duration_sec", .jint 180),
                ("direction", .jstr "outgoing")],
         .jobj [("call_id", .jstr "VOIP-20251130-0002"),
                ("from", .jstr "+96890002233"),
                ("to", .jstr p),
                ("start_time", .jstr "2025-11-29 21:15:00"),
                ("duration_sec", .jint 60),
                ("direction", .jstr "incoming")]]
      mkOk (.jobj
        [("phone", .jstr p),
         ("items", .jarr items),
         ("query_id", .jstr (pyOrStr query_id "mock-voip-001"))])

/-- `Tools.get_sms_records` (/business/ai/sms, mock). -/
def get_sms_records (phone query_id : Option String) : JValue :=
  match phone with
  | none =>
      mkErr "Missing required parameter: phone." (some ["phone"])
        (some "To query SMS records, please provide a phone number.")
  | some p =>
      let items : List JValue :=
        [.jobj [("sms_id", .jstr "SMS-20251130-0001"),
                ("from", .jstr p),
                ("to", .jstr "+96890003344"),
                ("time", .jstr "2025-11-30 09:00:00"),
                ("content", .jstr "Demo SMS content 1.")],
         .jobj [("sms_id", .jstr "SMS-20251129-0002"),
                ("from", .jstr "+96890005566"),
                ("to", .jstr p),
                ("time", .jstr "2025-11-29 18:20:00"),
                ("content", .jstr "Demo SMS content 2.")]]
      mkOk (.jobj
        [("phone", .jstr p),
         ("items", .jarr items),
         ("query_id", .jstr (pyOrStr query_id "mock-sms-001"))])

/-- `Tools.get_email_records` (/business/ai/email, mock). -/
def get_email_records (email query_id : Option String) : JValue :=
  match email with
  | none =>
      mkErr "Missing required parameter: email." (some ["email"])
        (some "To query email records, please provide an email address.")
  | some e =>
      let items : List JValue :=
        [.jobj [("message_id", .jstr "MAIL-20251130-0001"),
                ("from", .jstr e),
                ("to", .jarr [.jstr "friend1@example.com"]),
                ("subject", .jstr "Demo email subject 1"),
                ("time", .jstr "2025-11-30 08:30:00")],
         .jobj [("message_id", .jstr "MAIL-20251129-0002"),
                ("from", .jstr "other@example.com"),
                ("to", .jarr [.jstr e]),
                ("subject", .jstr "Demo email subject 2"),
                ("time", .jstr "2025-11-29 16:10:00")]]
      mkOk (.jobj
        [("email", .jstr e),
         ("items", .jarr items),
         ("query_id", .jstr (pyOrStr query_id "mock-email-001"))])

end InvestigationMock

namespace Tools2

open JValue

/-- The shared `{source: "MOCK_DATA"}` raw marker. -/
def rawMock : JValue := .jobj [("source", .jstr "MOCK_DATA")]

/-- The standardized failure return `{ok: false, message, data: null}`. -/
def mkFail (message : String) : JValue :=
  .jobj [("ok", .jbool false), ("message", .jstr message), ("data", .jnull)]

/-- The standardized success return `{ok: true, message, data}`. -/
def mkSucceed (message : String) (data : JValue) : JValue :=
  .jobj [("ok", .jbool true), ("message", .jstr message), ("data", data)]

/-- `Tools.query_person_basic_info` (unified mock). -/
def query_person_basic_info (person_id : Option String) (id_type : String)
    (name phone : Option String) : JValue :=
  if !truthy person_id && !(truthy name && truthy phone) then
    mkFail "Missing required parameters: provide \x27person_id\x27, or \x27name\x27 and \x27phone\x27. (mock tool)"
  else
    let mock_person_id := pyOrStr person_id "MOCK_ID_0001"
    let mock_name := pyOrStr name "Mock User"
    let mock_phone := pyOrStr phone "13800000000"
    let person_summary : JValue :=
      .jobj [("personId", .jstr mock_person_id),
             ("name", .jstr mock_name),
             ("gender", .jstr "M"),
             ("birthDate", .jstr "1990-01-01"),
             ("idType", .jstr id_type),
             ("idNumber", .jstr mock_person_id),
             ("phone", .jstr mock_phone),
             ("address", .jstr "Mock City, Mock District, Mock Street 001"),
             ("raw", .jobj
               [("personId", .jstr mock_person_id),
                ("name", .jstr mock_name),
                ("gender", .jstr "M"),
                ("birthDate", .jstr "1990-01-01"),
                ("idType", .jstr id_type),
                ("idNumber", .jstr mock_person_id),
                ("phone", .jstr mock_phone),
                ("address", .jstr "Mock City, Mock District, Mock Street 001"),
                ("source", .jstr "MOCK_DATA")])]
    mkSucceed "Person basic info mock query succeeded." person_summary

/-- `Tools.query_call_detail` (unified mock). -/
def query_call_detail (caller callee phone start_time end_time : Option String)
    (limit : Int) : JValue :=
  if !truthy caller && !truthy callee && !truthy phone then
    mkFail "Missing required parameters: provide \x27caller\x27, \x27callee\x27 or \x27phone\x27. (mock tool)"
  else
    let base_phone := pyOrStr (pyOrOpt (pyOrOpt phone caller) callee) "10086"
    let records : List JValue :=
      [.jobj [("callId", .jstr "MOCK_CALL_001"),
              ("caller", .jstr (pyOrStr caller base_phone)),
              ("callee", .jstr (pyOrStr callee "13900000001")),
              ("startTime", .jstr (pyOrStr start_time "2024-10-01 10:00:00")),
              ("endTime", .jstr "2024-10-01 10:05:30"),
              ("durationSeconds", .jint 330),
              ("direction", .jstr "outgoing"),
              ("result", .jstr "answered"),
              ("raw", rawMock)],
       .jobj [("callId", .jstr "MOCK_CALL_002"),
              ("caller", .jstr (pyOrStr caller "13900000002")),
              ("callee", .jstr (pyOrStr callee base_phone)),
              ("startTime", .jstr (pyOrStr start_time "2024-10-01 11:20:00")),
              ("endTime", .jstr "2024-10-01 11:21:10"),
              ("durationSeconds", .jint 70),
              ("direction", .jstr "incoming"),
              ("result", .jstr "missed"),
              ("raw", rawMock)]]
    mkSucceed "Call detail mock query succeeded." (.jarr records)

/-- `Tools.query_db_basic` (unified mock). -/
def query_db_basic (id_number id_type : String) (db_type : Option String) : JValue :=
  if id_number = "" then
    mkFail "Missing required parameter: \x27id_number\x27. (mock tool)"
  else
    let mock_db_type := pyOrStr db_type "general"
    let data : JValue :=
      .jobj [("idNumber", .jstr id_number),
             ("idType", .jstr id_type),
             ("dbType", .jstr mock_db_type),
             ("riskLevel", .jstr "low"),
             ("tags", .jarr [.jstr "mock", .jstr "demo"]),
             ("remark", .jstr "This is a mock base DB record for demo purpose."),
             ("raw", rawMock)]
    mkSucceed "Base DB mock query succeeded." data

/-- `Tools.query_location` (unified mock). -/
def query_location (phone device_id start_time end_time : Option String)
    (limit : Int) : JValue :=
  if !truthy phone && !truthy device_id then
    mkFail "Missing required parameters: provide \x27phone\x27 or \x27device_id\x27. (mock tool)"
  else
    let target := pyOrStr (pyOrOpt phone device_id) "MOCK_TARGET"
    let records : List JValue :=
      [.jobj [("target", .jstr target),
              ("time", .jstr (pyOrStr start_time "2024-10-01 09:00:00")),
              ("lat", .jdec "23.123456"),
              ("lon", .jdec "113.123456"),
              ("address", .jstr "Mock City - Location A"),
              ("raw", rawMock)],
       .jobj [("target", .jstr target),
              ("time", .jstr "2024-10-01 10:30:00"),
              ("lat", .jdec "23.223456"),
              ("lon", .jdec "113.223456"),
              ("address", .jstr "Mock City - Location B"),
              ("raw", rawMock)],
       .jobj [("target", .jstr target),
              ("time", .jstr (pyOrStr end_time "2024-10-01 12:00:00")),
              ("lat", .jdec "23.323456"),
              ("lon", .jdec "113.323456"),
              ("address", .jstr "Mock City - Location C"),
              ("raw", rawMock)]]
    mkSucceed "Location mock query succeeded." (.jarr records)

/-- `Tools.query_cdr` (unified mock). -/
def query_cdr (phone : String) (start_time end_time : Option String)
    (page page_size : Int) : JValue :=
  if phone = "" then
    mkFail "Missing required parameter: \x27phone\x27. (mock tool)"
  else
    let records : List JValue :=
      [.jobj [("cdrId", .jstr "MOCK_CDR_001"),
              ("phone", .jstr phone),
              ("otherParty", .jstr "13900000001"),
              ("startTime", .jstr (pyOrStr start_time "2024-10-01 08:00:00")),
              ("durationSeconds", .jint 120),
              ("direction", .jstr "outgoing"),
              ("result", .jstr "answered"),
              ("raw", rawMock)],
       .jobj [("cdrId", .jstr "MOCK_CDR_002"),
              ("phone", .jstr phone),
              ("otherParty", .jstr "13900000002"),
              ("startTime", .jstr "2024-10-01 09:15:00"),
              ("durationSeconds", .jint 0),
              ("direction", .jstr "incoming"),
              ("result", .jstr "missed"),
              ("raw", rawMock)]]
    let total : Int := 2
    let result : JValue :=
      .jobj [("records", .jarr records),
             ("total", .jint total),
             ("page", .jint page),
             ("pageSize", .jint page_size),
             ("raw", .jobj
               [("records", .jarr records),
                ("total", .jint total),
                ("source", .jstr "MOCK_DATA")])]
    mkSucceed "CDR mock query succeeded." result

end Tools2

/-
Session semantics for the mock variants.  A `Tools` instance holds only its
`valves` configuration object; the mock methods never assign to `self`, so
the embedded step function threads that state explicitly and each case is
the corresponding method applied to its arguments.  This lets statelessness
and per-input determinism be stated over arbitrary call interleavings.
-/

/-- `Valves` of the investigation mock `Tools` class. -/
structure MockValves where
  demo_mode : Bool

/-- `Valves` of the unified mock (`tools2`) `Tools` class. -/
structure Tools2Valves where
  BASE_URL : String
  API_KEY : String
  VERIFY_SSL : Bool

/-- The combined mutable state visible to the mock tool methods. -/
structure MockState where
  invValves : MockValves
  t2Valves : Tools2Valves

/-- One invocation of a mock-variant operation with its arguments. -/
inductive MCall where
  | basicInfo (id phone query_id : Option String)
  | contact (phone email query_id : Option String)
  | social (account phone query_id : Option String)
  | companyReg (id query_id : Option String)
  | voip (phone query_id : Option String)
  | smsRec (phone query_id : Option String)
  | emailRec (email query_id : Option String)
  | t2Person (person_id : Option String) (id_type : String) (name phone : Option String)
  | t2CallDetail (caller callee phone start_time end_time : Option String) (limit : Int)
  | t2Db (id_number id_type : String) (db_type : Option String)
  | t2Location (phone device_id start_time end_time : Option String) (limit : Int)
  | t2Cdr (phone : String) (start_time end_time : Option String) (page page_size : Int)

/-- Execute one mock call against the current state: the method body runs
and the state is returned unchanged (no mock method writes to `self`). -/
def runCall (s : MockState) (c : MCall) : JValue × MockState :=
  match c with
  | .basicInfo id phone query_id => (InvestigationMock.get_person_basic_info id phone query_id, s)
  | .contact phone email query_id => (InvestigationMock.get_contact_statistics phone email query_id, s)
  | .social account phone query_id => (InvestigationMock.get_social_accounts account phone query_id, s)
  | .companyReg id query_id => (InvestigationMock.get_company_registration id query_id, s)
  | .voip phone query_id => (InvestigationMock.get_voip_records phone query_id, s)
  | .smsRec phone query_id => (InvestigationMock.get_sms_records phone query_id, s)
  | .emailRec email query_id => (InvestigationMock.get_email_records email query_id, s)
  | .t2Person person_id id_type name phone => (Tools2.query_person_basic_info person_id id_type name phone, s)
  | .t2CallDetail caller callee phone st et limit => (Tools2.query_call_detail caller callee phone st et limit, s)
  | .t2Db id_number id_type db_type => (Tools2.query_db_basic id_number id_type db_type, s)
  | .t2Location phone device_id st et limit => (Tools2.query_location phone device_id st et limit, s)
  | .t2Cdr phone st et page page_size => (Tools2.query_cdr phone st et page page_size, s)

/-- Execute a whole session: a sequence of mock calls, threading the state. -/
def runTrace (s : MockState) (cs : List MCall) : List JValue × MockState :=
  match cs with
  | [] => ([], s)
  | c :: rest =>
      let step := runCall s c
      let others := runTrace step.2 rest
      (step.1 :: others.1, others.2)

/-- Normalisation of one optional argument: `""` becomes absent. -/
def normArg : Option String → Option String
  | none => none
  | some s => if s = "" then none else some s

lemma truthy_some_ne {v : String} (h : v ≠ "") : truthy (some v) = true := by
  simp [truthy, h]

lemma truthy_normArg (v : Option String) : truthy (normArg v) = truthy v := by
  cases v with
  | none => rfl
  | some s => by_cases h : s = "" <;> simp [normArg, truthy, h]

lemma normArg_of_truthy {v : Option String} (h : truthy v = true) : normArg v = v := by
  cases v with
  | none => simp [truthy] at h
  | some s =>
      simp only [truthy, bne_iff_ne, ne_eq, decide_eq_true_eq] at h
      simp [normArg, h]

lemma pyOrOpt_norm (a b : Option String) :
    pyOrOpt (normArg a) (normArg b) = normArg (pyOrOpt a b) := by
  unfold pyOrOpt
  rw [truthy_normArg]
  cases h : truthy a <;> simp [h, normArg_of_truthy]

lemma pyOrStr_normArg (a : Option String) (d : String) :
    pyOrStr (normArg a) d = pyOrStr a d := by
  cases a with
  | none => rfl
  | some s => by_cases h : s = "" <;> simp [normArg, pyOrStr, h]

lemma codeIs200_iff (c : JValue) :
    InvestigationApis.codeIs200 c = true ↔ c = .jint 200 := by
  cases c <;> simp [InvestigationApis.codeIs200]

lemma clean_params_normAll (ps : List (String × Option String)) :
    InvestigationApis.clean_params (ps.map fun kv => (kv.1, normArg kv.2))
      = InvestigationApis.clean_params ps := by
  induction ps with
  | nil => rfl
  | cons kv rest ih =>
      obtain ⟨k, v⟩ := kv
      cases h : truthy v with
      | false =>
          simpa [InvestigationApis.clean_params, List.filter_cons, truthy_normArg, h]
            using ih
      | true =>
          simpa [InvestigationApis.clean_params, List.filter_cons, truthy_normArg, h,
                 normArg_of_truthy h] using ih

lemma clean_params_eq_spec (ps : List (String × Option String)) :
    InvestigationApis.clean_params ps
      = ps.filter fun kv => decide (kv.2 ≠ none ∧ kv.2 ≠ some "") := by
  unfold InvestigationApis.clean_params
  apply List.filter_congr
  intro kv _
  cases hv : kv.2 with
  | none => simp [truthy, hv]
  | some s => by_cases h : s = "" <;> simp [truthy, hv, h]

lemma runOp_congr (b : JValue) (path : String)
    (raw1 raw2 : List (String × Option String))
    (h : InvestigationApis.clean_params raw1 = InvestigationApis.clean_params raw2) :
    InvestigationApis.runOp b path raw1 = InvestigationApis.runOp b path raw2 := by
  unfold InvestigationApis.runOp InvestigationApis.wrap_result
  cases InvestigationApis.gatewayGet b <;> simp [h]

lemma runCall_state_indep (s1 s2 : MockState) (c : MCall) :
    (runCall s1 c).1 = (runCall s2 c).1 := by
  cases c <;> rfl

lemma runCall_state_fix (s : MockState) (c : MCall) :
    (runCall s c).2 = s := by
  cases c <;> rfl

/-- Claim C1: `get_person_baseinfo` called with `phonenum="96890001122"`,
against a stub backend whose parsed response body is
`{"code":200,"data":{"name":"X"}}`, returns exactly
`{"api":"/ai/baseinfo","query_params":{"phonenum":"96890001122"},"found":true,"data":{"name":"X"}}`
(and performs exactly the one expected outbound GET). -/
theorem claim1_baseinfo_end_to_end :
    InvestigationApis.get_person_baseinfo
        (.jobj [("code", .jint 200), ("data", .jobj [("name", .jstr "X")])])
        none none (some "96890001122")
      = (.ok (.jobj
          [("api", .jstr "/ai/baseinfo"),
           ("query_params", .jobj [("phonenum", .jstr "96890001122")]),
           ("found", .jbool true),
           ("data", .jobj [("name", .jstr "X")])]),
         [("/ai/baseinfo", [("phonenum", some "96890001122")])]) := rfl

/-- Claim C2: the found-flag normalization returns `false` exactly on
`None`, the empty list and the empty dict; every other value — including
the scalars `0` and `False` — yields `true`. -/
theorem claim2_found_flag_characterization :
    (∀ v : JValue,
      InvestigationApis.normalize_found_flag v = false ↔
        (v = .jnull ∨ v = .jarr [] ∨ v = .jobj [])) ∧
    InvestigationApis.normalize_found_flag (.jint 0) = true ∧
    InvestigationApis.normalize_found_flag (.jbool false) = true := by
  refine ⟨fun v => ?_, rfl, rfl⟩
  cases v <;> simp [InvestigationApis.normalize_found_flag]

/-- Witness for C2: the characterization applied at `None` and at a
non-empty dict. -/
theorem claim2_found_flag_witness :
    InvestigationApis.normalize_found_flag .jnull = false ∧
    InvestigationApis.normalize_found_flag (.jobj [("name", .jstr "X")]) = true := by
  refine ⟨(claim2_found_flag_characterization.1 .jnull).mpr (Or.inl rfl), ?_⟩
  cases hf : InvestigationApis.normalize_found_flag (.jobj [("name", .jstr "X")]) with
  | false =>
      have h := (claim2_found_flag_characterization.1 (.jobj [("name", .jstr "X")])).mp hf
      simp at h
  | true => rfl

/-- Claim C3: envelope interpretation of the real-variant gateway — a
`code`-tagged dict with `code == 200` yields its `data` field; any other
code fails with a message containing the body's `msg`; a body that is not a
`code`-tagged dict is returned unchanged. -/
theorem claim3_gateway_envelope :
    (∀ fields : List (String × JValue),
        fields.lookup "code" = some (.jint 200) →
          InvestigationApis.gatewayGet (.jobj fields)
            = .ok (JValue.objGet fields "data")) ∧
    (∀ (fields : List (String × JValue)) (c : JValue),
        fields.lookup "code" = some c → c ≠ .jint 200 →
          InvestigationApis.gatewayGet (.jobj fields)
              = .error ("Backend error: " ++ JValue.pyStr (JValue.objGet fields "msg")) ∧
          ∀ m : String, fields.lookup "msg" = some (.jstr m) →
            ∃ pre suf,
              InvestigationApis.gatewayGet (.jobj fields) = .error (pre ++ m ++ suf)) ∧
    (∀ b : JValue, (∀ fields, b = .jobj fields → fields.lookup "code" = none) →
        InvestigationApis.gatewayGet b = .ok b) := by
  refine ⟨?_, ?_, ?_⟩
  · intro fields h
    simp only [InvestigationApis.gatewayGet, h]
    rfl
  · intro fields c h hne
    have hc : InvestigationApis.codeIs200 c = false := by
      cases hcc : InvestigationApis.codeIs200 c with
      | true => exact absurd ((codeIs200_iff c).mp hcc) hne
      | false => rfl
    have hg : InvestigationApis.gatewayGet (.jobj fields)
        = .error ("Backend error: " ++ JValue.pyStr (JValue.objGet fields "msg")) := by
      simp only [InvestigationApis.gatewayGet, h]
      simp [hc]
    refine ⟨hg, ?_⟩
    intro m hm
    refine ⟨"Backend error: ", "", ?_⟩
    rw [hg]
    simp [JValue.objGet, hm, JValue.pyStr]
  · intro b hb
    cases b with
    | jobj fields =>
        simp only [InvestigationApis.gatewayGet, hb fields rfl]
    | jnull => rfl
    | jbool b => rfl
    | jint n => rfl
    | jdec lit => rfl
    | jstr s => rfl
    | jarr items => rfl

/-- Witness for C3: the three branches at concrete bodies —
`{"code":200,"data":{"x":1}}`, `{"code":500,"msg":"boom"}` and a bare list. -/
theorem claim3_gateway_envelope_witness :
    InvestigationApis.gatewayGet
        (.jobj [("code", .jint 200), ("data", .jobj [("x", .jint 1)])])
      = .ok (.jobj [("x", .jint 1)]) ∧
    (∃ pre suf,
      InvestigationApis.gatewayGet (.jobj [("code", .jint 500), ("msg", .jstr "boom")])
        = .error (pre ++ "boom" ++ suf)) ∧
    InvestigationApis.gatewayGet (.jarr []) = .ok (.jarr []) := by
  refine ⟨?_, ?_, ?_⟩
  · exact claim3_gateway_envelope.1
      [("code", .jint 200), ("data", .jobj [("x", .jint 1)])] rfl
  · exact (claim3_gateway_envelope.2.1
      [("code", .jint 500), ("msg", .jstr "boom")] (.jint 500) rfl (by simp)).2
      "boom" rfl
  · exact claim3_gateway_envelope.2.2 (.jarr []) (fun fields h => nomatch h)

/-- Counterexample to C4: in the mock variant, `get_voip_records` called
with every parameter absent returns the `{code, msg, missing_params,
ask_user_prompt}` envelope, which has no `error` field (so it is not a
`MissingParamsError` of shape `{error: "MISSING_REQUIRED_PARAMS", message,
missing_fields}`) and no `missing_fields` field. -/
theorem claim4_mock_error_shape_cex :
    InvestigationMock.get_voip_records none none
      = .jobj [("code", .jint 500),
               ("msg", .jstr "Missing required parameter: phone."),
               ("missing_params", .jarr [.jstr "phone"]),
               ("ask_user_prompt",
                .jstr "To query VoIP call records, please provide a phone number.")] ∧
    JValue.jGetOpt (InvestigationMock.get_voip_records none none) "error" = none ∧
    JValue.jGetOpt (InvestigationMock.get_voip_records none none) "missing_fields" = none :=
  ⟨rfl, rfl, rfl⟩

/-- Claim C4 as amended: with all relevant parameters absent, every
real-variant operation returns (does not raise) the `MissingParamsError`
shape `{error: "MISSING_REQUIRED_PARAMS", message, missing_fields}` with
`missing_fields` exactly its declared required set and performs zero
outbound backend calls; every mock-variant operation likewise returns an
error value instead of proceeding, but in the mock variants' own shapes:
`{code: 500, msg, missing_params, ask_user_prompt}` with `missing_params`
the declared set (investigation mock), or `{ok: false, message, data: null}`
(unified mock). -/
theorem claim4_missing_params_amended :
    (∀ b : JValue,
      (InvestigationApis.get_person_baseinfo b none none none
        = (.ok (.jobj [("error", .jstr "MISSING_REQUIRED_PARAMS"),
            ("message", .jstr "To query base info, please provide at least one of: ID number, passport, or phone number."),
            ("missing_fields", .jarr [.jstr "id", .jstr "passport", .jstr "phonenum"])]), [])) ∧
      (InvestigationApis.get_family_members b none none
        = (.ok (.jobj [("error", .jstr "MISSING_REQUIRED_PARAMS"),
            ("message", .jstr "To query family members, please provide an ID number or a phone number."),
            ("missing_fields", .jarr [.jstr "id", .jstr "phonenum"])]), [])) ∧
      (InvestigationApis.get_cr_info b none none none
        = (.ok (.jobj [("error", .jstr "MISSING_REQUIRED_PARAMS"),
            ("message", .jstr "To query CR information, please provide at least one of: ID number, passport, or phone number."),
            ("missing_fields", .jarr [.jstr "id", .jstr "passport", .jstr "phonenum"])]), [])) ∧
      (InvestigationApis.get_top_contacts b none none
        = (.ok (.jobj [("error", .jstr "MISSING_REQUIRED_PARAMS"),
            ("message", .jstr "To query top contacts, please provide an ID number or a phone number."),
            ("missing_fields", .jarr [.jstr "id", .jstr "phonenum"])]), [])) ∧
      (InvestigationApis.get_vehicles b none none
        = (.ok (.jobj [("error", .jstr "MISSING_REQUIRED_PARAMS"),
            ("message", .jstr "To query vehicle information, please provide an ID number or a phone number."),
            ("missing_fields", .jarr [.jstr "id", .jstr "phonenum"])]), [])) ∧
      (InvestigationApis.get_social_accounts b none none
        = (.ok (.jobj [("error", .jstr "MISSING_REQUIRED_PARAMS"),
            ("message", .jstr "To query social accounts, please provide an ID number or a phone number."),
            ("missing_fields", .jarr [.jstr "id", .jstr "phonenum"])]), [])) ∧
      (InvestigationApis.get_locations b none none
        = (.ok (.jobj [("error", .jstr "MISSING_REQUIRED_PARAMS"),
            ("message", .jstr "To query locations, please provide an ID number or a phone number."),
            ("missing_fields", .jarr [.jstr "id", .jstr "phonenum"])]), [])) ∧
      (InvestigationApis.search_voip_records b none none
        = (.ok (.jobj [("error", .jstr "MISSING_REQUIRED_PARAMS"),
            ("message", .jstr "To query VoIP call records, please provide a keyword or a phone number."),
            ("missing_fields", .jarr [.jstr "keyword", .jstr "phonenum"])]), [])) ∧
      (InvestigationApis.search_sms_records b none none
        = (.ok (.jobj [("error", .jstr "MISSING_REQUIRED_PARAMS"),
            ("message", .jstr "To query SMS records, please provide a keyword or a phone number."),
            ("missing_fields", .jarr [.jstr "keyword", .jstr "phonenum"])]), [])) ∧
      (InvestigationApis.search_email_records b none none
        = (.ok (.jobj [("error", .jstr "MISSING_REQUIRED_PARAMS"),
            ("message", .jstr "To query email records, please provide a keyword or an email address."),
            ("missing_fields", .jarr [.jstr "keyword", .jstr "email"])]), []))) ∧
    ((InvestigationMock.get_person_basic_info none none none
        = .jobj [("code", .jint 500),
            ("msg", .jstr "Missing required identifier: you must provide \x27id\x27 or \x27phone\x27."),
            ("missing_params", .jarr [.jstr "id", .jstr "phone"]),
            ("ask_user_prompt", .jstr "To query basic information, please provide an ID or a phone number.")]) ∧
      (InvestigationMock.get_contact_statistics none none none
        = .jobj [("code", .jint 500),
            ("msg", .jstr "Missing required identifier: you must provide \x27phone\x27 or \x27email\x27."),
            ("missing_params", .jarr [.jstr "phone", .jstr "email"]),
            ("ask_user_prompt", .jstr "To query contacts, please provide a phone number or an email address.")]) ∧
      (InvestigationMock.get_social_accounts none none none
        = .jobj [("code", .jint 500),
            ("msg", .jstr "Missing required identifier: you must provide \x27account\x27 or \x27phone\x27."),
            ("missing_params", .jarr [.jstr "account", .jstr "phone"]),
            ("ask_user_prompt", .jstr "To query social identities, please provide a social account or a phone number.")]) ∧
      (InvestigationMock.get_company_registration none none
        = .jobj [("code", .jint 500),
            ("msg", .jstr "Missing required parameter: id."),
            ("missing_params", .jarr [.jstr "id"]),
            ("ask_user_prompt", .jstr "To query company registration information, please provide a company id.")]) ∧
      (InvestigationMock.get_voip_records none none
        = .jobj [("code", .jint 500),
            ("msg", .jstr "Missing required parameter: phone."),
            ("missing_params", .jarr [.jstr "phone"]),
            ("ask_user_prompt", .jstr "To query VoIP call records, please provide a phone number.")]) ∧
      (InvestigationMock.get_sms_records none none
        = .jobj [("code", .jint 500),
            ("msg", .jstr "Missing required parameter: phone."),
            ("missing_params", .jarr [.jstr "phone"]),
            ("ask_user_prompt", .jstr "To query SMS records, please provide a phone number.")]) ∧
      (InvestigationMock.get_email_records none none
        = .jobj [("code", .jint 500),
            ("msg", .jstr "Missing required parameter: email."),
            ("missing_params", .jarr [.jstr "email"]),
            ("ask_user_prompt", .jstr "To query email records, please provide an email address.")])) ∧
    ((Tools2.query_person_basic_info none "id_card" none none
        = .jobj [("ok", .jbool false),
            ("message", .jstr "Missing required parameters: provide \x27person_id\x27, or \x27name\x27 and \x27phone\x27. (mock tool)"),
            ("data", .jnull)]) ∧
      (Tools2.query_call_detail none none none none none 100
        = .jobj [("ok", .jbool false),
            ("message", .jstr "Missing required parameters: provide \x27caller\x27, \x27callee\x27 or \x27phone\x27. (mock tool)"),
            ("data", .jnull)]) ∧
      (Tools2.query_db_basic "" "id_card" none
        = .jobj [("ok", .jbool false),
            ("message", .jstr "Missing required parameter: \x27id_number\x27. (mock tool)"),
            ("data", .jnull)]) ∧
      (Tools2.query_location none none none none 200
        = .jobj [("ok", .jbool false),
            ("message", .jstr "Missing required parameters: provide \x27phone\x27 or \x27device_id\x27. (mock tool)"),
            ("data", .jnull)]) ∧
      (Tools2.query_cdr "" none none 1 100
        = .jobj [("ok", .jbool false),
            ("message", .jstr "Missing required parameter: \x27phone\x27. (mock tool)"),
            ("data", .jnull)])) :=
  ⟨fun b => ⟨rfl, rfl, rfl, rfl, rfl, rfl, rfl, rfl, rfl, rfl⟩,
   ⟨rfl, rfl, rfl, rfl, rfl, rfl, rfl⟩,
   ⟨rfl, rfl, rfl, rfl, rfl⟩⟩

/-- Claim C5: for every operation whose rule is "at least one of" a set,
supplying a non-empty value for any single member alone passes validation —
the real-variant operations proceed to the backend call, the mock-variant
operations return their success envelope (`code: 0` resp. `ok: true`). -/
theorem claim5_any_one_member :
    ((∀ (b : JValue) (v : String), v ≠ "" →
        InvestigationApis.get_person_baseinfo b (some v) none none
          = InvestigationApis.runOp b "/ai/baseinfo"
              [("id", some v), ("passport", none), ("phonenum", none)]) ∧
      (∀ (b : JValue) (v : String), v ≠ "" →
        InvestigationApis.get_person_baseinfo b none (some v) none
          = InvestigationApis.runOp b "/ai/baseinfo"
              [("id", none), ("passport", some v), ("phonenum", none)]) ∧
      (∀ (b : JValue) (v : String), v ≠ "" →
        InvestigationApis.get_person_baseinfo b none none (some v)
          = InvestigationApis.runOp b "/ai/baseinfo"
              [("id", none), ("passport", none), ("phonenum", some v)]) ∧
      (∀ (b : JValue) (v : String), v ≠ "" →
        InvestigationApis.get_family_members b (some v) none
          = InvestigationApis.runOp b "/ai/family" [("id", some v), ("phonenum", none)]) ∧
      (∀ (b : JValue) (v : String), v ≠ "" →
        InvestigationApis.get_family_members b none (some v)
          = InvestigationApis.runOp b "/ai/family" [("id", none), ("phonenum", some v)]) ∧
      (∀ (b : JValue) (v : String), v ≠ "" →
        InvestigationApis.get_cr_info b (some v) none none
          = InvestigationApis.runOp b "/ai/cr"
              [("id", some v), ("passport", none), ("phonenum", none)]) ∧
      (∀ (b : JValue) (v : String), v ≠ "" →
        InvestigationApis.get_cr_info b none (some v) none
          = InvestigationApis.runOp b "/ai/cr"
              [("id", none), ("passport", some v), ("phonenum", none)]) ∧
      (∀ (b : JValue) (v : String), v ≠ "" →
        InvestigationApis.get_cr_info b none none (some v)
          = InvestigationApis.runOp b "/ai/cr"
              [("id", none), ("passport", none), ("phonenum", some v)]) ∧
      (∀ (b : JValue) (v : String), v ≠ "" →
        InvestigationApis.get_top_contacts b (some v) none
          = InvestigationApis.runOp b "/ai/contact" [("id", some v), ("phonenum", none)]) ∧
      (∀ (b : JValue) (v : String), v ≠ "" →
        InvestigationApis.get_top_contacts b none (some v)
          = InvestigationApis.runOp b "/ai/contact" [("id", none), ("phonenum", some v)]) ∧
      (∀ (b : JValue) (v : String), v ≠ "" →
        InvestigationApis.get_vehicles b (some v) none
          = InvestigationApis.runOp b "/ai/car" [("id", some v), ("phonenum", none)]) ∧
      (∀ (b : JValue) (v : String), v ≠ "" →
        InvestigationApis.get_vehicles b none (some v)
          = InvestigationApis.runOp b "/ai/car" [("id", none), ("phonenum", some v)]) ∧
      (∀ (b : JValue) (v : String), v ≠ "" →
        InvestigationApis.get_social_accounts b (some v) none
          = InvestigationApis.runOp b "/ai/social" [("id", some v), ("phonenum", none)]) ∧
      (∀ (b : JValue) (v : String), v ≠ "" →
        InvestigationApis.get_social_accounts b none (some v)
          = InvestigationApis.runOp b "/ai/social" [("id", none), ("phonenum", some v)]) ∧
      (∀ (b : JValue) (v : String), v ≠ "" →
        InvestigationApis.get_locations b (some v) none
          = InvestigationApis.runOp b "/ai/location" [("id", some v), ("phonenum", none)]) ∧
      (∀ (b : JValue) (v : String), v ≠ "" →
        InvestigationApis.get_locations b none (some v)
          = InvestigationApis.runOp b "/ai/location" [("id", none), ("phonenum", some v)]) ∧
      (∀ (b : JValue) (v : String), v ≠ "" →
        InvestigationApis.search_voip_records b (some v) none
          = InvestigationApis.runOp b "/ai/voip" [("keyword", some v), ("phonenum", none)]) ∧
      (∀ (b : JValue) (v : String), v ≠ "" →
        InvestigationApis.search_voip_records b none (some v)
          = InvestigationApis.runOp b "/ai/voip" [("keyword", none), ("phonenum", some v)]) ∧
      (∀ (b : JValue) (v : String), v ≠ "" →
        InvestigationApis.search_sms_records b (some v) none
          = InvestigationApis.runOp b "/ai/sms" [("keyword", some v), ("phonenum", none)]) ∧
      (∀ (b : JValue) (v : String), v ≠ "" →
        InvestigationApis.search_sms_records b none (some v)
          = InvestigationApis.runOp b "/ai/sms" [("keyword", none), ("phonenum", some v)]) ∧
      (∀ (b : JValue) (v : String), v ≠ "" →
        InvestigationApis.search_email_records b (some v) none
          = InvestigationApis.runOp b "/ai/email" [("keyword", some v), ("email", none)]) ∧
      (∀ (b : JValue) (v : String), v ≠ "" →
        InvestigationApis.search_email_records b none (some v)
          = InvestigationApis.runOp b "/ai/email" [("keyword", none), ("email", some v)])) ∧
    ((∀ (v : String), v ≠ "" →
        JValue.jGetOpt (InvestigationMock.get_person_basic_info (some v) none none) "code"
          = some (.jint 0)) ∧
      (∀ (v : String), v ≠ "" →
        JValue.jGetOpt (InvestigationMock.get_person_basic_info none (some v) none) "code"
          = some (.jint 0)) ∧
      (∀ (v : String), v ≠ "" →
        JValue.jGetOpt (InvestigationMock.get_contact_statistics (some v) none none) "code"
          = some (.jint 0)) ∧
      (∀ (v : String), v ≠ "" →
        JValue.jGetOpt (InvestigationMock.get_contact_statistics none (some v) none) "code"
          = some (.jint 0)) ∧
      (∀ (v : String), v ≠ "" →
        JValue.jGetOpt (InvestigationMock.get_social_accounts (some v) none none) "code"
          = some (.jint 0)) ∧
      (∀ (v : String), v ≠ "" →
        JValue.jGetOpt (InvestigationMock.get_social_accounts none (some v) none) "code"
          = some (.jint 0)) ∧
      (∀ (v : String), v ≠ "" →
        JValue.jGetOpt (InvestigationMock.get_company_registration (some v) none) "code"
          = some (.jint 0)) ∧
      (∀ (v : String), v ≠ "" →
        JValue.jGetOpt (InvestigationMock.get_voip_records (some v) none) "code"
          = some (.jint 0)) ∧
      (∀ (v : String), v ≠ "" →
        JValue.jGetOpt (InvestigationMock.get_sms_records (some v) none) "code"
          = some (.jint 0)) ∧
      (∀ (v : String), v ≠ "" →
        JValue.jGetOpt (InvestigationMock.get_email_records (some v) none) "code"
          = some (.jint 0))) ∧
    ((∀ (v : String), v ≠ "" →
        JValue.jGetOpt (Tools2.query_call_detail (some v) none none none none 100) "ok"
          = some (.jbool true)) ∧
      (∀ (v : String), v ≠ "" →
        JValue.jGetOpt (Tools2.query_call_detail none (some v) none none none 100) "ok"
          = some (.jbool true)) ∧
      (∀ (v : String), v ≠ "" →
        JValue.jGetOpt (Tools2.query_call_detail none none (some v) none none 100) "ok"
          = some (.jbool true)) ∧
      (∀ (v : String), v ≠ "" →
        JValue.jGetOpt (Tools2.query_location (some v) none none none 200) "ok"
          = some (.jbool true)) ∧
      (∀ (v : String), v ≠ "" →
        JValue.jGetOpt (Tools2.query_location none (some v) none none 200) "ok"
          = some (.jbool true)) ∧
      (∀ (v : String), v ≠ "" →
        JValue.jGetOpt (Tools2.query_db_basic v "id_card" none) "ok"
          = some (.jbool true)) ∧
      (∀ (v : String), v ≠ "" →
        JValue.jGetOpt (Tools2.query_cdr v none none 1 100) "ok"
          = some (.jbool true))) := by
  refine ⟨⟨?_, ?_, ?_, ?_, ?_, ?_, ?_, ?_, ?_, ?_, ?_, ?_, ?_, ?_, ?_, ?_, ?_, ?_, ?_, ?_, ?_, ?_⟩,
          ⟨?_, ?_, ?_, ?_, ?_, ?_, ?_, ?_, ?_, ?_⟩,
          ⟨?_, ?_, ?_, ?_, ?_, ?_, ?_⟩⟩
  all_goals intros
  all_goals first
    | rfl
    | simp_all [InvestigationApis.get_person_baseinfo, InvestigationApis.get_family_members,
        InvestigationApis.get_cr_info, InvestigationApis.get_top_contacts,
        InvestigationApis.get_vehicles, InvestigationApis.get_social_accounts,
        InvestigationApis.get_locations, InvestigationApis.search_voip_records,
        InvestigationApis.search_sms_records, InvestigationApis.search_email_records,
        Tools2.query_call_detail, Tools2.query_location, Tools2.query_db_basic,
        Tools2.query_cdr, Tools2.mkSucceed, JValue.jGetOpt, List.lookup, truthy]

/-- Witness for C5: one member of each variant's "at least one of" set,
supplied alone with a concrete non-empty value, passes validation. -/
theorem claim5_any_one_member_witness :
    InvestigationApis.get_person_baseinfo .jnull (some "A123") none none
      = InvestigationApis.runOp .jnull "/ai/baseinfo"
          [("id", some "A123"), ("passport", none), ("phonenum", none)] ∧
    JValue.jGetOpt (InvestigationMock.get_person_basic_info (some "A123") none none) "code"
      = some (.jint 0) ∧
    JValue.jGetOpt (Tools2.query_call_detail (some "96890001122") none none none none 100) "ok"
      = some (.jbool true) :=
  ⟨claim5_any_one_member.1.1 .jnull "A123" (by decide),
   claim5_any_one_member.2.1.1 "A123" (by decide),
   claim5_any_one_member.2.2.1 "96890001122" (by decide)⟩

/-- Counterexample to C6: in the mock variant, passing `phone` as `""` is
not equivalent to omitting it — `get_voip_records` succeeds (`code: 0`) on
the empty string but fails validation (`code: 500`) on `None`. -/
theorem claim6_empty_vs_none_cex :
    InvestigationMock.get_voip_records (some "") none
      ≠ InvestigationMock.get_voip_records none none ∧
    JValue.jGetOpt (InvestigationMock.get_voip_records (some "") none) "code"
      = some (.jint 0) ∧
    JValue.jGetOpt (InvestigationMock.get_voip_records none none) "code"
      = some (.jint 500) := by
  refine ⟨?_, rfl, rfl⟩
  intro h
  have h0 : JValue.jGetOpt (InvestigationMock.get_voip_records (some "") none) "code"
      = JValue.jGetOpt (InvestigationMock.get_voip_records none none) "code" := by rw [h]
  have h1 : (some (JValue.jint 0) : Option JValue) = some (.jint 500) := h0
  simp at h1

/-- Claim C6 as amended: in the real variant and in the unified mock
(`tools2`), passing a parameter as `""` produces the same result as passing
it as `None`/omitting it — shown by replacing any subset of arguments via
the `""`-to-absent normalisation `normArg`; in the investigation mock
variant the two are not interchangeable, since its validation counts `""`
as provided (see the counterexample). -/
theorem claim6_empty_equals_none_amended :
    (∀ (b : JValue) (id pp pn : Option String),
      InvestigationApis.get_person_baseinfo b (normArg id) (normArg pp) (normArg pn)
        = InvestigationApis.get_person_baseinfo b id pp pn) ∧
    (∀ (b : JValue) (id pn : Option String),
      InvestigationApis.get_family_members b (normArg id) (normArg pn)
        = InvestigationApis.get_family_members b id pn) ∧
    (∀ (b : JValue) (id pp pn : Option String),
      InvestigationApis.get_cr_info b (normArg id) (normArg pp) (normArg pn)
        = InvestigationApis.get_cr_info b id pp pn) ∧
    (∀ (b : JValue) (id pn : Option String),
      InvestigationApis.get_top_contacts b (normArg id) (normArg pn)
        = InvestigationApis.get_top_contacts b id pn) ∧
    (∀ (b : JValue) (id pn : Option String),
      InvestigationApis.get_vehicles b (normArg id) (normArg pn)
        = InvestigationApis.get_vehicles b id pn) ∧
    (∀ (b : JValue) (id pn : Option String),
      InvestigationApis.get_social_accounts b (normArg id) (normArg pn)
        = InvestigationApis.get_social_accounts b id pn) ∧
    (∀ (b : JValue) (id pn : Option String),
      InvestigationApis.get_locations b (normArg id) (normArg pn)
        = InvestigationApis.get_locations b id pn) ∧
    (∀ (b : JValue) (kw pn : Option String),
      InvestigationApis.search_voip_records b (normArg kw) (normArg pn)
        = InvestigationApis.search_voip_records b kw pn) ∧
    (∀ (b : JValue) (kw pn : Option String),
      InvestigationApis.search_sms_records b (normArg kw) (normArg pn)
        = InvestigationApis.search_sms_records b kw pn) ∧
    (∀ (b : JValue) (kw em : Option String),
      InvestigationApis.search_email_records b (normArg kw) (normArg em)
        = InvestigationApis.search_email_records b kw em) ∧
    (∀ (pid nm ph : Option String) (idt : String),
      Tools2.query_person_basic_info (normArg pid) idt (normArg nm) (normArg ph)
        = Tools2.query_person_basic_info pid idt nm ph) ∧
    (∀ (caller callee ph st et : Option String) (lim : Int),
      Tools2.query_call_detail (normArg caller) (normArg callee) (normArg ph)
          (normArg st) (normArg et) lim
        = Tools2.query_call_detail caller callee ph st et lim) ∧
    (∀ (ph dev st et : Option String) (lim : Int),
      Tools2.query_location (normArg ph) (normArg dev) (normArg st) (normArg et) lim
        = Tools2.query_location ph dev st et lim) ∧
    (∀ (idn idt : String) (dbt : Option String),
      Tools2.query_db_basic idn idt (normArg dbt)
        = Tools2.query_db_basic idn idt dbt) ∧
    (∀ (ph : String) (st et : Option String) (page psz : Int),
      Tools2.query_cdr ph (normArg st) (normArg et) page psz
        = Tools2.query_cdr ph st et page psz) := by
  have hcong : ∀ (b : JValue) (path : String) (ps : List (String × Option String)),
      InvestigationApis.runOp b path (ps.map fun kv => (kv.1, normArg kv.2))
        = InvestigationApis.runOp b path ps :=
    fun b path ps => runOp_congr b path _ ps (clean_params_normAll ps)
  refine ⟨?_, ?_, ?_, ?_, ?_, ?_, ?_, ?_, ?_, ?_, ?_, ?_, ?_, ?_, ?_⟩
  · intro b id pp pn
    have h := hcong b "/ai/baseinfo" [("id", id), ("passport", pp), ("phonenum", pn)]
    simp only [List.map_cons, List.map_nil] at h
    by_cases hg : (!truthy id && (!truthy pp && !truthy pn)) = true <;>
      simp [InvestigationApis.get_person_baseinfo, truthy_normArg, hg, h]
  · intro b id pn
    have h := hcong b "/ai/family" [("id", id), ("phonenum", pn)]
    simp only [List.map_cons, List.map_nil] at h
    by_cases hg : (!truthy id && !truthy pn) = true <;>
      simp [InvestigationApis.get_family_members, truthy_normArg, hg, h]
  · intro b id pp pn
    have h := hcong b "/ai/cr" [("id", id), ("passport", pp), ("phonenum", pn)]
    simp only [List.map_cons, List.map_nil] at h
    by_cases hg : (!truthy id && (!truthy pp && !truthy pn)) = true <;>
      simp [InvestigationApis.get_cr_info, truthy_normArg, hg, h]
  · intro b id pn
    have h := hcong b "/ai/contact" [("id", id), ("phonenum", pn)]
    simp only [List.map_cons, List.map_nil] at h
    by_cases hg : (!truthy id && !truthy pn) = true <;>
      simp [InvestigationApis.get_top_contacts, truthy_normArg, hg, h]
  · intro b id pn
    have h := hcong b "/ai/car" [("id", id), ("phonenum", pn)]
    simp only [List.map_cons, List.map_nil] at h
    by_cases hg : (!truthy id && !truthy pn) = true <;>
      simp [InvestigationApis.get_vehicles, truthy_normArg, hg, h]
  · intro b id pn
    have h := hcong b "/ai/social" [("id", id), ("phonenum", pn)]
    simp only [List.map_cons, List.map_nil] at h
    by_cases hg : (!truthy id && !truthy pn) = true <;>
      simp [InvestigationApis.get_social_accounts, truthy_normArg, hg, h]
  · intro b id pn
    have h := hcong b "/ai/location" [("id", id), ("phonenum", pn)]
    simp only [List.map_cons, List.map_nil] at h
    by_cases hg : (!truthy id && !truthy pn) = true <;>
      simp [InvestigationApis.get_locations, truthy_normArg, hg, h]
  · intro b kw pn
    have h := hcong b "/ai/voip" [("keyword", kw), ("phonenum", pn)]
    simp only [List.map_cons, List.map_nil] at h
    by_cases hg : (!truthy kw && !truthy pn) = true <;>
      simp [InvestigationApis.search_voip_records, truthy_normArg, hg, h]
  · intro b kw pn
    have h := hcong b "/ai/sms" [("keyword", kw), ("phonenum", pn)]
    simp only [List.map_cons, List.map_nil] at h
    by_cases hg : (!truthy kw && !truthy pn) = true <;>
      simp [InvestigationApis.search_sms_records, truthy_normArg, hg, h]
  · intro b kw em
    have h := hcong b "/ai/email" [("keyword", kw), ("email", em)]
    simp only [List.map_cons, List.map_nil] at h
    by_cases hg : (!truthy kw && !truthy em) = true <;>
      simp [InvestigationApis.search_email_records, truthy_normArg, hg, h]
  · intro pid nm ph idt
    simp [Tools2.query_person_basic_info, truthy_normArg, pyOrStr_normArg]
  · intro caller callee ph st et lim
    simp [Tools2.query_call_detail, truthy_normArg, pyOrOpt_norm, pyOrStr_normArg]
  · intro ph dev st et lim
    simp [Tools2.query_location, truthy_normArg, pyOrOpt_norm, pyOrStr_normArg]
  · intro idn idt dbt
    simp [Tools2.query_db_basic, pyOrStr_normArg]
  · intro ph st et page psz
    simp [Tools2.query_cdr, pyOrStr_normArg]

/-- Claim C7: every phone-echoing mock operation reproduces a supplied
phone number verbatim in its echoed payload fields (baseinfo, voip, sms,
social, contact, tools2 person / call detail / location / cdr), and fills
the fixed placeholder constant in those fields when the phone is not
supplied but validation is otherwise satisfied (baseinfo and tools2 person
via their phone placeholders, social via `+96890001122`; for voip, sms and
cdr the phone is the sole required parameter, so no placeholder case
exists, and in contact, call detail and location an absent phone makes the
echoing field carry the other supplied identifier rather than a fixed
constant). -/
theorem claim7_mock_phone_echo :
    (∀ qid : Option String,
      JValue.jGet (JValue.jGet
          (InvestigationMock.get_person_basic_info none (some "96890001122") qid) "data") "phone"
        = .jstr "96890001122") ∧
    (∀ (i : String) (qid : Option String),
      JValue.jGet (JValue.jGet
          (InvestigationMock.get_person_basic_info (some i) none qid) "data") "phone"
        = .jstr "+96890001122") ∧
    (∀ qid : Option String,
      JValue.jGet (JValue.jGet
          (InvestigationMock.get_voip_records (some "96890001122") qid) "data") "phone"
        = .jstr "96890001122" ∧
      JValue.jGet (JValue.jIdx (JValue.jGet (JValue.jGet
          (InvestigationMock.get_voip_records (some "96890001122") qid) "data") "items") 0) "from"
        = .jstr "96890001122" ∧
      JValue.jGet (JValue.jIdx (JValue.jGet (JValue.jGet
          (InvestigationMock.get_voip_records (some "96890001122") qid) "data") "items") 1) "to"
        = .jstr "96890001122") ∧
    JValue.jGet (JValue.jGet
        (Tools2.query_person_basic_info none "id_card" (some "N") (some "96890001122")) "data") "phone"
      = .jstr "96890001122" ∧
    JValue.jGet (JValue.jGet
        (Tools2.query_person_basic_info (some "P1") "id_card" none none) "data") "phone"
      = .jstr "13800000000" ∧
    (∀ qid : Option String,
      JValue.jGet (JValue.jGet
          (InvestigationMock.get_sms_records (some "96890001122") qid) "data") "phone"
        = .jstr "96890001122" ∧
      JValue.jGet (JValue.jIdx (JValue.jGet (JValue.jGet
          (InvestigationMock.get_sms_records (some "96890001122") qid) "data") "items") 0) "from"
        = .jstr "96890001122" ∧
      JValue.jGet (JValue.jIdx (JValue.jGet (JValue.jGet
          (InvestigationMock.get_sms_records (some "96890001122") qid) "data") "items") 1) "to"
        = .jstr "96890001122") ∧
    (∀ qid : Option String,
      JValue.jGet (JValue.jGet
          (InvestigationMock.get_social_accounts none (some "96890001122") qid) "data") "owner"
        = .jstr "96890001122" ∧
      JValue.jGet (JValue.jIdx (JValue.jGet (JValue.jGet
          (InvestigationMock.get_social_accounts none (some "96890001122") qid) "data") "items") 0) "phone"
        = .jstr "96890001122" ∧
      JValue.jGet (JValue.jIdx (JValue.jGet (JValue.jGet
          (InvestigationMock.get_social_accounts none (some "96890001122") qid) "data") "items") 1) "phone"
        = .jstr "96890001122") ∧
    (∀ qid : Option String,
      JValue.jGet (JValue.jIdx (JValue.jGet (JValue.jGet
          (InvestigationMock.get_social_accounts (some "acct01") none qid) "data") "items") 0) "phone"
        = .jstr "+96890001122" ∧
      JValue.jGet (JValue.jIdx (JValue.jGet (JValue.jGet
          (InvestigationMock.get_social_accounts (some "acct01") none qid) "data") "items") 1) "phone"
        = .jstr "+96890001122") ∧
    (∀ (st et : Option String) (page psz : Int),
      JValue.jGet (JValue.jIdx (JValue.jGet (JValue.jGet
          (Tools2.query_cdr "96890001122" st et page psz) "data") "records") 0) "phone"
        = .jstr "96890001122" ∧
      JValue.jGet (JValue.jIdx (JValue.jGet (JValue.jGet
          (Tools2.query_cdr "96890001122" st et page psz) "data") "records") 1) "phone"
        = .jstr "96890001122") ∧
    (∀ qid : Option String,
      JValue.jGet (JValue.jGet
          (InvestigationMock.get_contact_statistics (some "96890001122") none qid) "data") "owner"
        = .jstr "96890001122") ∧
    (∀ (st et : Option String) (lim : Int),
      JValue.jGet (JValue.jIdx (JValue.jGet
          (Tools2.query_call_detail none none (some "96890001122") st et lim) "data") 0) "caller"
        = .jstr "96890001122" ∧
      JValue.jGet (JValue.jIdx (JValue.jGet
          (Tools2.query_call_detail none none (some "96890001122") st et lim) "data") 1) "callee"
        = .jstr "96890001122") ∧
    (∀ (st et : Option String) (lim : Int),
      JValue.jGet (JValue.jIdx (JValue.jGet
          (Tools2.query_location (some "96890001122") none st et lim) "data") 0) "target"
        = .jstr "96890001122") :=
  ⟨fun _ => rfl, fun _ _ => rfl, fun _ => ⟨rfl, rfl, rfl⟩, rfl, rfl,
   fun _ => ⟨rfl, rfl, rfl⟩, fun _ => ⟨rfl, rfl, rfl⟩, fun _ => ⟨rfl, rfl⟩,
   fun _ _ _ _ => ⟨rfl, rfl⟩, fun _ => rfl, fun _ _ _ => ⟨rfl, rfl⟩,
   fun _ _ _ => rfl⟩

/-- Claim C8: every mock-variant operation is deterministic per input and
stateless — in any two sessions (arbitrary interleavings of other calls
from arbitrary initial configurations), the same call with identical
arguments returns the identical value, and no call changes the state. -/
theorem claim8_mock_deterministic_stateless :
    ∀ (s1 s2 : MockState) (pre1 pre2 : List MCall) (c : MCall),
      (runCall (runTrace s1 pre1).2 c).1 = (runCall (runTrace s2 pre2).2 c).1 ∧
      (runCall (runTrace s1 pre1).2 c).2 = (runTrace s1 pre1).2 :=
  fun _ _ _ _ c => ⟨runCall_state_indep _ _ c, runCall_state_fix _ c⟩

/-- Claim C9 (implicit invariant): the `query_params` field of every
wrapped result equals the raw input mapping with all `None`- and
`""`-valued entries removed; consequently no entry of `query_params` is
`null` or the empty string. -/
theorem claim9_query_params_cleaned :
    ∀ (api : String) (raw : List (String × Option String)) (data : JValue),
      JValue.jGet (InvestigationApis.wrap_result api raw data) "query_params"
        = InvestigationApis.paramsToJ
            (raw.filter fun kv => decide (kv.2 ≠ none ∧ kv.2 ≠ some "")) ∧
      ∀ p ∈ JValue.jFields
          (JValue.jGet (InvestigationApis.wrap_result api raw data) "query_params"),
        p.2 ≠ JValue.jnull ∧ p.2 ≠ JValue.jstr "" := by
  intro api raw data
  have hq : JValue.jGet (InvestigationApis.wrap_result api raw data) "query_params"
      = InvestigationApis.paramsToJ (InvestigationApis.clean_params raw) := rfl
  constructor
  · rw [hq, clean_params_eq_spec]
  · intro p hp
    rw [hq] at hp
    simp only [InvestigationApis.paramsToJ, JValue.jFields] at hp
    rcases List.mem_map.mp hp with ⟨⟨k, v⟩, hmem, hpe⟩
    have hv : truthy v = true := (List.mem_filter.mp hmem).2
    cases v with
    | none => simp [truthy] at hv
    | some s =>
        simp only [truthy, bne_iff_ne, ne_eq, decide_eq_true_eq] at hv
        subst hpe
        exact ⟨by simp, by simp [hv]⟩

/-- Witness for C9: the invariant at a concrete wrapped result with one
absent and one supplied parameter. -/
theorem claim9_query_params_witness :
    JValue.jGet (InvestigationApis.wrap_result "/ai/baseinfo"
        [("id", none), ("phonenum", some "96890001122")] .jnull) "query_params"
      = InvestigationApis.paramsToJ
          ([("id", none), ("phonenum", some "96890001122")].filter
            fun kv => decide (kv.2 ≠ none ∧ kv.2 ≠ some "")) ∧
    ((("phonenum" : String), JValue.jstr "96890001122").2 ≠ JValue.jnull ∧
      (("phonenum" : String), JValue.jstr "96890001122").2 ≠ JValue.jstr "") := by
  have h := claim9_query_params_cleaned "/ai/baseinfo"
      [("id", none), ("phonenum", some "96890001122")] .jnull
  exact ⟨h.1, h.2 ("phonenum", .jstr "96890001122") (List.mem_singleton.mpr rfl)⟩

/-- Claim C10 (implicit): for every non-empty phone and arbitrary time and
pagination arguments, `query_cdr` returns `ok: true` with exactly 2
records, `total = 2`, and `page`/`pageSize` echoed unchanged; the
pagination arguments never affect the returned records. -/
theorem claim10_query_cdr_pagination :
    ∀ (phone : String), phone ≠ "" →
    ∀ (st et : Option String) (page psz : Int),
      JValue.jGet (Tools2.query_cdr phone st et page psz) "ok" = .jbool true ∧
      JValue.jLen (JValue.jGet (JValue.jGet
          (Tools2.query_cdr phone st et page psz) "data") "records") = 2 ∧
      JValue.jGet (JValue.jGet (Tools2.query_cdr phone st et page psz) "data") "total"
        = .jint 2 ∧
      JValue.jGet (JValue.jGet (Tools2.query_cdr phone st et page psz) "data") "page"
        = .jint page ∧
      JValue.jGet (JValue.jGet (Tools2.query_cdr phone st et page psz) "data") "pageSize"
        = .jint psz ∧
      ∀ (page2 psz2 : Int),
        JValue.jGet (JValue.jGet (Tools2.query_cdr phone st et page2 psz2) "data") "records"
          = JValue.jGet (JValue.jGet (Tools2.query_cdr phone st et page psz) "data") "records" := by
  intro phone h st et page psz
  simp [Tools2.query_cdr, Tools2.mkSucceed, JValue.jGet, JValue.objGet, JValue.jLen,
    h, List.lookup]

/-- Witness for C10: the pagination contract at a concrete phone number,
including record-list invariance under a pagination change. -/
theorem claim10_query_cdr_witness :
    JValue.jGet (Tools2.query_cdr "96890001122" none none 1 100) "ok" = .jbool true ∧
    JValue.jLen (JValue.jGet (JValue.jGet
        (Tools2.query_cdr "96890001122" none none 1 100) "data") "records") = 2 ∧
    JValue.jGet (JValue.jGet (Tools2.query_cdr "96890001122" none none 1 100) "data") "total"
      = .jint 2 ∧
    JValue.jGet (JValue.jGet (Tools2.query_cdr "96890001122" none none 1 100) "data") "page"
      = .jint 1 ∧
    JValue.jGet (JValue.jGet (Tools2.query_cdr "96890001122" none none 1 100) "data") "pageSize"
      = .jint 100 ∧
    JValue.jGet (JValue.jGet (Tools2.query_cdr "96890001122" none none 5 17) "data") "records"
      = JValue.jGet (JValue.jGet (Tools2.query_cdr "96890001122" none none 1 100) "data") "records" := by
  have h := claim10_query_cdr_pagination "96890001122" (by decide) none none 1 100
  exact ⟨h.1, h.2.1, h.2.2.1, h.2.2.2.1, h.2.2.2.2.1, h.2.2.2.2.2 5 17⟩

end Spec2Proof
